import Mathlib

/-!
Verification of the `ipipe` Windows named-pipe backend (`src/fifo_windows.rs`).

The source file implements a `Pipe` handle over Windows named pipes: a path,
an optional lazily-established writer connection (`handle : Option<PipeStream>`),
an optional lazily-established listener connection (`listener : Option<PipeStream>`),
and an `is_closed` flag.  All OS interaction goes through the external
`windows_named_pipe` crate; we model that collaborator as an explicit
environment (`Env`) of fallible operations, and every method of `Pipe` as a
pure state-passing function `Env → Pipe → ... → Except IoError α × Pipe`.

Bytes (`u8` in the source) are modelled as naturals; no arithmetic is ever
performed on them, so no modular reduction arises.  Rust's `Result` with the
crate error type is modelled as `Except IoError`; the crate `Error` type lives
in the crate root, which is not among the given sources, and its `From<io::Error>`
conversion is modelled as the identity on the underlying io error (only the
io error's `raw_os_error()` content is ever inspected by this file's code).
-/

namespace Ipipe

/-- An `std::io::Error` as observed by this code: the only part consulted is
`raw_os_error()`, which yields `Option Int` (an error built from a raw OS code
has `some code`; a synthetic io error has `none`). -/
structure IoError where
  raw_os_error : Option Int
deriving Repr, DecidableEq

/-- An established pipe connection (`PipeStream` in the source), abstract;
we only need identity tokens to tell connections apart. -/
abbrev PipeStream := Nat

/-- Modelled from the spec: the `OnCleanup` enumeration is declared in the
crate root, which is not part of the given sources.  The spec describes it as
"an enumerated option selecting whether the OS pipe object is deleted when the
owning handle is finally discarded (master) versus left for external cleanup". -/
inductive OnCleanup where
  | delete_on_drop
  | no_delete
deriving Repr, DecidableEq

/-- The external OS named-pipe collaborator (`windows_named_pipe` crate plus
the raw stream reads/writes).  Each field is one primitive the source calls:
`connect` is `PipeStream::connect(path)`; `bindAccept` is
`PipeListener::bind(path).and_then(|ls| ls.accept())` (the source always
composes the two, so we model the composition); `read s n` is a raw
`stream.read(buf)` on a buffer of length `n`, returning the bytes read (on
error the caller's buffer is untouched); `write s buf` is `stream.write(buf)`
returning the byte count accepted; `flush s` is `stream.flush()`. -/
structure Env where
  connect : String → Except IoError PipeStream
  bindAccept : String → Except IoError PipeStream
  read : PipeStream → Nat → Except IoError (List Nat)
  write : PipeStream → List Nat → Except IoError Nat
  flush : PipeStream → Except IoError Unit

/-- The `Pipe` struct of `src/fifo_windows.rs`:
`handle` is the outbound writer connection, `listener` the inbound listener
connection, `path` the pipe's name, `is_closed` the closed flag. -/
structure Pipe where
  handle : Option PipeStream
  listener : Option PipeStream
  path : String
  is_closed : Bool
deriving Repr, DecidableEq

/-- `Pipe::open(path, _: OnCleanup)`: attaches to the path with no
connections and the closed flag false; the cleanup-policy argument is bound to
`_` in the source and discarded.  Named `open_pipe` because `open` is a Lean
keyword. -/
def open_pipe (path : String) (_ : OnCleanup) : Except IoError Pipe :=
  .ok { handle := none, listener := none, path := path, is_closed := false }

/-- `Pipe::create(delete_on_drop)`: builds the path string
`\\.\pipe\pipe_{process id}_{15 random alphanumeric chars}` and delegates to
`open`.  The process id and the random character stream
(`thread_rng().sample_iter(&Alphanumeric)`, an infinite stream) are external
inputs, passed here as parameters. -/
def create (pid : Nat) (randChars : Nat → Char) (delete_on_drop : OnCleanup) :
    Except IoError Pipe :=
  let path_string :=
    "\\\\.\\pipe\\pipe_" ++ toString pid ++ "_"
      ++ String.mk ((List.range 15).map randChars)
  open_pipe path_string delete_on_drop

/-- `Pipe::close`: sets the closed flag, drops both connections, returns
`Ok(())`. -/
def close (p : Pipe) : Except IoError Unit × Pipe :=
  (.ok (), { p with is_closed := true, handle := none, listener := none })

/-- `Pipe::init_reader`: if no writer connection exists, connect one
(`PipeStream::connect(&self.path)?`); otherwise a no-op. -/
def init_reader (env : Env) (p : Pipe) : Except IoError Unit × Pipe :=
  match p.handle with
  | some _ => (.ok (), p)
  | none =>
    match env.connect p.path with
    | .ok s => (.ok (), { p with handle := some s })
    | .error e => (.error e, p)

/-- `Pipe::init_listener`: if no listener connection exists, bind the path and
accept one inbound connection; otherwise a no-op. -/
def init_listener (env : Env) (p : Pipe) : Except IoError Unit × Pipe :=
  match p.listener with
  | some _ => (.ok (), p)
  | none =>
    match env.bindAccept p.path with
    | .ok s => (.ok (), { p with listener := some s })
    | .error e => (.error e, p)

/-- `Pipe::write_bytes(buf)`: init the writer connection, then write.  The
`None => unreachable!()` arm of the source is modelled as an error; it is
provably dead (after a successful `init_reader` the handle is `some`). -/
def write_bytes (env : Env) (p : Pipe) (buf : List Nat) :
    Except IoError Nat × Pipe :=
  match init_reader env p with
  | (.error e, p1) => (.error e, p1)
  | (.ok _, p1) =>
    match p1.handle with
    | none => (.error { raw_os_error := none }, p1)
    | some s =>
      match env.write s buf with
      | .ok n => (.ok n, p1)
      | .error e => (.error e, p1)

/-- `Pipe::write_byte(b)`: `self.write_bytes(&[buf])`. -/
def write_byte (env : Env) (p : Pipe) (b : Nat) : Except IoError Nat × Pipe :=
  write_bytes env p [b]

/-- `Pipe::write_string(s)`: `self.init_reader()?; self.write_bytes(s.as_bytes())`.
The string argument is modelled as its byte sequence. -/
def write_string (env : Env) (p : Pipe) (s : List Nat) :
    Except IoError Nat × Pipe :=
  match init_reader env p with
  | (.error e, p1) => (.error e, p1)
  | (.ok _, p1) => write_bytes env p1 s

/-- `Pipe::read_byte`: init the listener, read into the one-byte buffer
`[0u8]`.  On a read error carrying a raw OS code other than 109 the error is
returned; on any other read error control falls through and `Ok(buf[0])` is
returned with the buffer untouched (the zero byte).  On a successful read,
`buf[0]` is the first byte read, or still 0 if zero bytes were read. -/
def read_byte (env : Env) (p : Pipe) : Except IoError Nat × Pipe :=
  match init_listener env p with
  | (.error e, p1) => (.error e, p1)
  | (.ok _, p1) =>
    match p1.listener with
    | none => (.error { raw_os_error := none }, p1)
    | some ls =>
      match env.read ls 1 with
      | .error e =>
        match e.raw_os_error with
        | some c => if c ≠ 109 then (.error e, p1) else (.ok 0, p1)
        | none => (.ok 0, p1)
      | .ok data => (.ok (data.headD 0), p1)

/-- Loop of `std::io::Read::read_exact`: `read_exact_go env s fuel need`
repeatedly reads until `need` bytes are obtained; a successful read of zero
bytes yields an unexpected-end-of-file error, which is synthetic (no raw OS
code).  The first argument is structural fuel: each iteration obtains at least
one byte, so the initial buffer length bounds the iteration count and the
fuel-exhaustion arm (`0, _ + 1`) is never reached when started with
`fuel = need`.  (`ErrorKind::Interrupted` retry is not modelled; the
environment has no interrupt notion.) -/
def read_exact_go (env : Env) (s : PipeStream) :
    Nat → Nat → Except IoError (List Nat)
  | _, 0 => .ok []
  | 0, _ + 1 => .error { raw_os_error := none }
  | fuel + 1, need + 1 =>
    match env.read s (need + 1) with
    | .error e => .error e
    | .ok data =>
      if data.length = 0 then .error { raw_os_error := none }
      else if data.length ≥ need + 1 then .ok (data.take (need + 1))
      else
        match read_exact_go env s fuel (need + 1 - data.length) with
        | .error e => .error e
        | .ok rest => .ok (data ++ rest)

/-- `std::io::Read::read_exact` on a buffer of length `bufLen`: fills the
buffer exactly, or errors.  On a zero-length buffer it returns at once without
reading. -/
def read_exact (env : Env) (s : PipeStream) (bufLen : Nat) :
    Except IoError (List Nat) :=
  read_exact_go env s bufLen bufLen

/-- `Pipe::read_bytes(size)`: init the listener, then
`let mut buf = Vec::with_capacity(size); listener.read_exact(&mut buf)`.
`Vec::with_capacity(size)` has length 0, so `read_exact` receives a
zero-length slice, reads nothing, and the returned vector is empty whatever
`size` is.  The 109-translation mirrors the source; with a zero-length buffer
`read_exact` cannot error, so that arm is dead. -/
def read_bytes (env : Env) (p : Pipe) (size : Nat) :
    Except IoError (List Nat) × Pipe :=
  match init_listener env p with
  | (.error e, p1) => (.error e, p1)
  | (.ok _, p1) =>
    match p1.listener with
    | none => (.error { raw_os_error := none }, p1)
    | some ls =>
      let bufLen := 0
      match read_exact env ls bufLen with
      | .error e =>
        match e.raw_os_error with
        | some c => if c ≠ 109 then (.error e, p1) else (.ok [], p1)
        | none => (.ok [], p1)
      | .ok buf => (.ok buf, p1)

/-- `Pipe::flush_pipe`: tear down the writer connection if present and
(re-)establish it via `init_reader`, then flush the listener connection if one
exists. -/
def flush_pipe (env : Env) (p : Pipe) : Except IoError Unit × Pipe :=
  let step1 :=
    match p.handle with
    | none => init_reader env p
    | some _ => init_reader env { p with handle := none }
  match step1 with
  | (.error e, p1) => (.error e, p1)
  | (.ok _, p1) =>
    match p1.listener with
    | some ls =>
      match env.flush ls with
      | .error e => (.error e, p1)
      | .ok _ => (.ok (), p1)
    | none => (.ok (), p1)

/-- `<Pipe as std::io::Read>::read(bytes)`: init the listener, read into the
caller's buffer of length `n`.  A read error with a raw OS code other than 109
is returned; code 109 or a code-less error becomes `Ok(0)`; a successful read
returns its byte count. -/
def read (env : Env) (p : Pipe) (n : Nat) : Except IoError Nat × Pipe :=
  match init_listener env p with
  | (.error e, p1) => (.error e, p1)
  | (.ok _, p1) =>
    match p1.listener with
    | none => (.error { raw_os_error := none }, p1)
    | some ls =>
      match env.read ls n with
      | .error e =>
        match e.raw_os_error with
        | some c => if c ≠ 109 then (.error e, p1) else (.ok 0, p1)
        | none => (.ok 0, p1)
      | .ok data => (.ok data.length, p1)

/-- `<Pipe as Drop>::drop`: if the handle is not closed, invoke `close`; an
error from that close is printed to stderr (collected here as the second
component, a list of diagnostic messages) and never propagated — the function
is total and returns no error. -/
def drop_pipe (p : Pipe) : Pipe × List String :=
  if p.is_closed then (p, [])
  else
    match close p with
    | (.ok _, p1) => (p1, [])
    | (.error _, p1) => (p1, ["Error closing pipe"])

/-- `<Pipe as Clone>::clone`: same path, no connections, closed flag preset to
true. -/
def clone (p : Pipe) : Pipe :=
  { handle := none, listener := none, path := p.path, is_closed := true }

/-! ### Concrete test fixtures -/

/-- A concrete environment in which every OS operation succeeds: `connect`
yields connection 1, `bindAccept` yields connection 2, raw reads return a
zero-filled buffer, writes accept every byte, flush succeeds. -/
def env_ok : Env where
  connect := fun _ => .ok 1
  bindAccept := fun _ => .ok 2
  read := fun _ n => .ok (List.replicate n 0)
  write := fun _ buf => .ok buf.length
  flush := fun _ => .ok ()

/-- Like `env_ok`, but every raw read fails with raw OS code 109
(ERROR_BROKEN_PIPE, the graceful-disconnect code). -/
def env_read109 : Env :=
  { env_ok with read := fun _ _ => .error { raw_os_error := some 109 } }

/-- Like `env_ok`, but every raw read fails with a synthetic io error that
carries no raw OS code (`raw_os_error()` is `None`). -/
def env_read_nocode : Env :=
  { env_ok with read := fun _ _ => .error { raw_os_error := none } }

/-- Like `env_ok`, but every raw read fails with raw OS code 5
(ERROR_ACCESS_DENIED — not the graceful-disconnect code). -/
def env_read5 : Env :=
  { env_ok with read := fun _ _ => .error { raw_os_error := some 5 } }

/-- A handle freshly opened on path `"p"`. -/
def p_open : Pipe :=
  { handle := none, listener := none, path := "p", is_closed := false }

/-- A handle on path `"p"` whose listener connection (connection 2, the one
`env_ok.bindAccept` hands out) is already established. -/
def p_listening : Pipe :=
  { handle := none, listener := some 2, path := "p", is_closed := false }

/-! ### Claim theorems -/

/-- C1: the claim says `read_bytes(len b)` after `write_bytes(b)` returns
exactly `b`.  The code disagrees: `read_bytes` allocates the buffer with
`Vec::with_capacity(size)`, whose length is 0, so `read_exact` receives a
zero-length slice and reads nothing.  At the failing input `b = [1, 2, 3]`
on a fully functional environment, the write accepts 3 bytes but
`read_bytes 3` returns the empty vector, not `[1, 2, 3]` — contradicting the
source's own doc comment "Reads the given number of bytes and returns the
result in a vector." -/
theorem c1_read_bytes_reads_nothing :
    (write_bytes env_ok p_open [1, 2, 3]).1 = Except.ok 3
      ∧ (read_bytes env_ok p_open 3).1 = Except.ok []
      ∧ (read_bytes env_ok p_open 3).1 ≠ Except.ok [1, 2, 3] := by
  refine ⟨rfl, rfl, fun h => ?_⟩
  have h3 : ([] : List Nat) = [1, 2, 3] :=
    Except.ok.inj ((rfl : (read_bytes env_ok p_open 3).1 = Except.ok []).symm.trans h)
  exact absurd h3 (by simp)

/-- C2 counterexample: closing a freshly opened handle and then calling
`write_bytes` on it succeeds and establishes a new writer connection (the
handle field becomes `some 1`), so an operation after `close` is neither a
failure nor a no-op. -/
theorem c2_close_then_write_reconnects :
    (close p_open).2.is_closed = true
      ∧ (write_bytes env_ok (close p_open).2 [7]).1 = Except.ok 1
      ∧ (write_bytes env_ok (close p_open).2 [7]).2.handle = some 1 :=
  ⟨rfl, rfl, rfl⟩

/-- C2 (amended): `close()` drops both connections and sets the closed flag,
but the flag is never consulted by the I/O operations: every read, write and
flush behaves on a handle with the flag set exactly as on the same handle with
the flag clear (lazily re-establishing connections as usual) and leaves the
flag untouched.  Only `drop` consults the flag. -/
theorem c2_operations_ignore_closed_flag (env : Env) (p : Pipe) (b : Bool)
    (buf : List Nat) (n : Nat) :
    write_bytes env { p with is_closed := b } buf
        = ((write_bytes env p buf).1,
           { (write_bytes env p buf).2 with is_closed := b })
      ∧ read_byte env { p with is_closed := b }
        = ((read_byte env p).1, { (read_byte env p).2 with is_closed := b })
      ∧ read_bytes env { p with is_closed := b } n
        = ((read_bytes env p n).1, { (read_bytes env p n).2 with is_closed := b })
      ∧ read env { p with is_closed := b } n
        = ((read env p n).1, { (read env p n).2 with is_closed := b })
      ∧ flush_pipe env { p with is_closed := b }
        = ((flush_pipe env p).1, { (flush_pipe env p).2 with is_closed := b }) := by
  obtain ⟨h, l, pa, c⟩ := p
  refine ⟨?_, ?_, ?_, ?_, ?_⟩
  · cases h with
    | some s =>
      cases hw : env.write s buf <;>
        simp [write_bytes, init_reader, hw]
    | none =>
      cases hc : env.connect pa with
      | error e => simp [write_bytes, init_reader, hc]
      | ok s =>
        cases hw : env.write s buf <;>
          simp [write_bytes, init_reader, hc, hw]
  · cases l with
    | some ls =>
      cases hr : env.read ls 1 with
      | ok data => simp [read_byte, init_listener, hr]
      | error e =>
        obtain ⟨ro⟩ := e
        cases ro with
        | none => simp [read_byte, init_listener, hr]
        | some cc =>
          by_cases hcc : cc = 109 <;>
            simp [read_byte, init_listener, hr, hcc]
    | none =>
      cases hb : env.bindAccept pa with
      | error e => simp [read_byte, init_listener, hb]
      | ok ls =>
        cases hr : env.read ls 1 with
        | ok data => simp [read_byte, init_listener, hb, hr]
        | error e =>
          obtain ⟨ro⟩ := e
          cases ro with
          | none => simp [read_byte, init_listener, hb, hr]
          | some cc =>
            by_cases hcc : cc = 109 <;>
              simp [read_byte, init_listener, hb, hr, hcc]
  · cases l with
    | some ls => simp [read_bytes, init_listener, read_exact, read_exact_go]
    | none =>
      cases hb : env.bindAccept pa with
      | error e => simp [read_bytes, init_listener, hb]
      | ok ls => simp [read_bytes, init_listener, hb, read_exact, read_exact_go]
  · cases l with
    | some ls =>
      cases hr : env.read ls n with
      | ok data => simp [read, init_listener, hr]
      | error e =>
        obtain ⟨ro⟩ := e
        cases ro with
        | none => simp [read, init_listener, hr]
        | some cc =>
          by_cases hcc : cc = 109 <;>
            simp [read, init_listener, hr, hcc]
    | none =>
      cases hb : env.bindAccept pa with
      | error e => simp [read, init_listener, hb]
      | ok ls =>
        cases hr : env.read ls n with
        | ok data => simp [read, init_listener, hb, hr]
        | error e =>
          obtain ⟨ro⟩ := e
          cases ro with
          | none => simp [read, init_listener, hb, hr]
          | some cc =>
            by_cases hcc : cc = 109 <;>
              simp [read, init_listener, hb, hr, hcc]
  · cases h with
    | some s =>
      cases hc : env.connect pa with
      | error e => simp [flush_pipe, init_reader, hc]
      | ok s1 =>
        cases l with
        | none => simp [flush_pipe, init_reader, hc]
        | some ls =>
          cases hf : env.flush ls <;>
            simp [flush_pipe, init_reader, hc, hf]
    | none =>
      cases hc : env.connect pa with
      | error e => simp [flush_pipe, init_reader, hc]
      | ok s1 =>
        cases l with
        | none => simp [flush_pipe, init_reader, hc]
        | some ls =>
          cases hf : env.flush ls <;>
            simp [flush_pipe, init_reader, hc, hf]

/-- C3: when the underlying read fails with raw OS code 109, `read_byte`
returns `Ok` with the zero byte, `read_bytes` returns `Ok` with the (unfilled,
hence empty) buffer, and the generic stream read returns `Ok 0`; the error is
never surfaced.  Stated on a handle whose listener connection is established. -/
theorem c3_graceful_disconnect_benign (env : Env) (p : Pipe) (ls : PipeStream)
    (n size : Nat) (hls : p.listener = some ls) :
    (env.read ls 1 = .error { raw_os_error := some 109 } →
        read_byte env p = (.ok 0, p))
      ∧ ((∀ m, env.read ls m = .error { raw_os_error := some 109 }) →
        read_bytes env p size = (.ok [], p))
      ∧ (env.read ls n = .error { raw_os_error := some 109 } →
        read env p n = (.ok 0, p)) := by
  refine ⟨fun hr => ?_, fun _ => ?_, fun hr => ?_⟩
  · simp [read_byte, init_listener, hls, hr]
  · simp [read_bytes, init_listener, hls, read_exact, read_exact_go]
  · simp [read, init_listener, hls, hr]

/-- C3 witness: on the environment whose reads always fail with code 109 and a
handle with an established listener, all three read paths succeed as stated. -/
theorem c3_graceful_disconnect_benign_witness :
    read_byte env_read109 p_listening = (Except.ok 0, p_listening)
      ∧ read_bytes env_read109 p_listening 4 = (Except.ok [], p_listening)
      ∧ read env_read109 p_listening 4 = (Except.ok 0, p_listening) := by
  obtain ⟨h1, h2, h3⟩ :=
    c3_graceful_disconnect_benign env_read109 p_listening 2 4 4 rfl
  exact ⟨h1 rfl, h2 (fun m => rfl), h3 rfl⟩

/-- C4 counterexample: the claim says every non-109 read failure is
propagated.  But a read failure carrying no raw OS code (`raw_os_error()` is
`None`) — which is not the designated code — is swallowed by `read_byte`
(`Ok 0`) and by the generic stream read (`Ok 0`, a zero-length successful
read), and `read_bytes` propagates no read failure at all (its buffer is
zero-length, so the underlying read is never invoked): even on an environment
whose every read fails with raw OS code 5, it returns `Ok`. -/
theorem c4_nongraceful_errors_swallowed :
    env_read_nocode.read 2 1 = Except.error { raw_os_error := none }
      ∧ (read_byte env_read_nocode p_listening).1 = Except.ok 0
      ∧ (read env_read_nocode p_listening 1).1 = Except.ok 0
      ∧ env_read5.read 2 3 = Except.error { raw_os_error := some 5 }
      ∧ (read_bytes env_read5 p_listening 3).1 = Except.ok [] :=
  ⟨rfl, rfl, rfl, rfl, rfl⟩

/-- C4 (amended): a read failure carrying a raw OS code other than 109 is
propagated unchanged by `read_byte` and by the generic stream read; a read
failure with no raw OS code at all is swallowed by both (`read_byte` returns
the zero byte, the stream read returns a zero-length successful read); and
`read_bytes` never invokes the underlying read (zero-length buffer),
returning success regardless. -/
theorem c4_os_coded_errors_propagated (env : Env) (p : Pipe) (ls : PipeStream)
    (e : IoError) (c : Int) (n size : Nat) (hls : p.listener = some ls) :
    (e.raw_os_error = some c → c ≠ 109 → env.read ls 1 = .error e →
        read_byte env p = (.error e, p))
      ∧ (e.raw_os_error = some c → c ≠ 109 → env.read ls n = .error e →
        read env p n = (.error e, p))
      ∧ (e.raw_os_error = none → env.read ls 1 = .error e →
        read_byte env p = (.ok 0, p))
      ∧ (e.raw_os_error = none → env.read ls n = .error e →
        read env p n = (.ok 0, p))
      ∧ (read_bytes env p size).1 = Except.ok [] := by
  refine ⟨fun hcode hne hr => ?_, fun hcode hne hr => ?_,
    fun hcode hr => ?_, fun hcode hr => ?_, ?_⟩
  · simp [read_byte, init_listener, hls, hr, hcode, hne]
  · simp [read, init_listener, hls, hr, hcode, hne]
  · simp [read_byte, init_listener, hls, hr, hcode]
  · simp [read, init_listener, hls, hr, hcode]
  · simp [read_bytes, init_listener, hls, read_exact, read_exact_go]

/-- C4 witness: with reads failing with raw OS code 5 (≠ 109), `read_byte`
and the generic stream read propagate the error; with reads failing with a
code-less io error, both swallow it as a success; `read_bytes` succeeds
either way. -/
theorem c4_os_coded_errors_propagated_witness :
    read_byte env_read5 p_listening
        = (Except.error { raw_os_error := some 5 }, p_listening)
      ∧ read env_read5 p_listening 1
        = (Except.error { raw_os_error := some 5 }, p_listening)
      ∧ read_byte env_read_nocode p_listening = (Except.ok 0, p_listening)
      ∧ read env_read_nocode p_listening 1 = (Except.ok 0, p_listening)
      ∧ (read_bytes env_read5 p_listening 3).1 = Except.ok [] := by
  obtain ⟨h1, h2, _, _, h5⟩ :=
    c4_os_coded_errors_propagated env_read5 p_listening 2
      { raw_os_error := some 5 } 5 1 3 rfl
  obtain ⟨_, _, h3, h4, _⟩ :=
    c4_os_coded_errors_propagated env_read_nocode p_listening 2
      { raw_os_error := none } 5 1 3 rfl
  exact ⟨h1 rfl (by decide) rfl, h2 rfl (by decide) rfl,
    h3 rfl rfl, h4 rfl rfl, h5⟩

/-- C5: cloning yields a handle with the same path, no writer connection, no
listener connection, and the closed flag preset to true; discarding the clone
performs no cleanup (its drop is the identity, invoking no close), while a
discard invokes close exactly when the handle is not closed. -/
theorem c5_clone_is_non_owning (p : Pipe) :
    clone p
        = { handle := none, listener := none, path := p.path,
            is_closed := true }
      ∧ drop_pipe (clone p) = (clone p, [])
      ∧ drop_pipe p = (if p.is_closed then p else (close p).2, []) := by
  refine ⟨rfl, ?_, ?_⟩
  · simp [drop_pipe, clone]
  · by_cases hb : p.is_closed <;> simp [drop_pipe, close, hb]

/-- C6: `close()` always returns `Ok(())`, sets the closed flag and drops both
connections; it is idempotent — a second close returns no error and leaves the
state exactly as after the first. -/
theorem c6_close_idempotent (p : Pipe) :
    close p
        = (Except.ok (),
           { handle := none, listener := none, path := p.path,
             is_closed := true })
      ∧ close (close p).2 = (Except.ok (), (close p).2) :=
  ⟨rfl, rfl⟩

/-- C7: when connecting to the handle's path succeeds, `flush_pipe` leaves
the handle holding exactly the fresh writer connection — the previous writer
connection (if any) is torn down and replaced, and one is established if none
existed — the listener connection is left unchanged (an absent listener stays
absent), and the result is the listener's flush outcome when a listener
exists, `Ok` otherwise. -/
theorem c7_flush_pipe_reconnects (env : Env) (p : Pipe) (s : PipeStream)
    (hc : env.connect p.path = .ok s) :
    flush_pipe env p =
      ((match p.listener with
        | none => Except.ok ()
        | some ls =>
          match env.flush ls with
          | .ok _ => Except.ok ()
          | .error e => Except.error e),
       { p with handle := some s }) := by
  obtain ⟨h, l, pa, c⟩ := p
  cases h with
  | none =>
    cases l with
    | none => simp [flush_pipe, init_reader, hc]
    | some ls =>
      cases hf : env.flush ls <;> simp [flush_pipe, init_reader, hc, hf]
  | some s0 =>
    cases l with
    | none => simp [flush_pipe, init_reader, hc]
    | some ls =>
      cases hf : env.flush ls <;> simp [flush_pipe, init_reader, hc, hf]

/-- C7 witness: on the all-succeeding environment, flushing a fresh handle
(no writer, no listener) succeeds and establishes the writer connection the
environment's connect hands out, leaving the listener absent. -/
theorem c7_flush_pipe_reconnects_witness :
    flush_pipe env_ok p_open
      = (Except.ok (),
         { handle := some 1, listener := none, path := "p",
           is_closed := false }) :=
  c7_flush_pipe_reconnects env_ok p_open 1 rfl

/-- C8: `create(policy)` builds its path as the namespace prefix
`\\.\pipe\pipe_`, the process id, an underscore, and the 15-character
alphanumeric suffix drawn from the random stream, then delegates to `open`
with that path and the given policy, yielding a handle with no connections
that is not closed. -/
theorem c8_create_path_format (pid : Nat) (randChars : Nat → Char)
    (policy : OnCleanup) (halnum : ∀ i, (randChars i).isAlphanum = true) :
    (String.mk ((List.range 15).map randChars)).length = 15
      ∧ (∀ ch ∈ (List.range 15).map randChars, ch.isAlphanum = true)
      ∧ create pid randChars policy
        = open_pipe ("\\\\.\\pipe\\pipe_" ++ toString pid ++ "_"
            ++ String.mk ((List.range 15).map randChars)) policy
      ∧ create pid randChars policy
        = Except.ok
            { handle := none, listener := none,
              path := "\\\\.\\pipe\\pipe_" ++ toString pid ++ "_"
                ++ String.mk ((List.range 15).map randChars),
              is_closed := false } := by
  refine ⟨?_, ?_, rfl, rfl⟩
  · simp [String.length]
  · intro ch hch
    simp only [List.mem_map, List.mem_range] at hch
    obtain ⟨i, _, rfl⟩ := hch
    exact halnum i

/-- C8 witness: with process id 12 and a random stream of the character `a`,
the created handle's path is `\\.\pipe\pipe_12_aaaaaaaaaaaaaaa` and the suffix
has length 15. -/
theorem c8_create_path_format_witness :
    (String.mk ((List.range 15).map (fun _ : Nat => 'a'))).length = 15
      ∧ create 12 (fun _ : Nat => 'a') OnCleanup.delete_on_drop
        = Except.ok
            { handle := none, listener := none,
              path := "\\\\.\\pipe\\pipe_12_aaaaaaaaaaaaaaa",
              is_closed := false } := by
  have h := c8_create_path_format 12 (fun _ : Nat => 'a')
      OnCleanup.delete_on_drop (fun _ => rfl)
  exact ⟨h.1, h.2.2.2.trans (by rfl)⟩

/-- C9: discarding a handle invokes `close` automatically exactly when the
closed flag is false; the function is total (discard cannot fail) and, since
`close` always succeeds, the diagnostic stream receives nothing (an error
would be reported there, never propagated — the error arm of the drop model
emits a diagnostic message and no error value). -/
theorem c9_drop_closes_exactly_when_open (p : Pipe) :
    drop_pipe p = (if p.is_closed then p else (close p).2, [])
      ∧ (drop_pipe p).2 = [] := by
  by_cases hb : p.is_closed <;> simp [drop_pipe, close, hb]

/-- C10: `open` succeeds for every path and every cleanup policy, returning a
handle with no connections that is not closed; the policy argument is
discarded — the result is the same for all policies, and no operation of the
model even receives the policy (it is not part of the `Pipe` state). -/
theorem c10_open_always_succeeds_ignoring_policy (path : String)
    (c c1 c2 : OnCleanup) :
    open_pipe path c
        = Except.ok
            { handle := none, listener := none, path := path,
              is_closed := false }
      ∧ open_pipe path c1 = open_pipe path c2 :=
  ⟨rfl, rfl⟩

end Ipipe

